import Mathlib

/-!
Verification development for the audio-quality-assessment and document-generation
core of the ai-printer backend.

The Python sources are shallowly embedded over `ℚ` (exact rational arithmetic in
place of IEEE floats; all constants appearing in the code are decimal and exactly
representable), `String`, `List` and `Except` (Python exceptions).  External
capabilities (the celery task results, the OpenAI calls, the Jinja2 engine
outcome) are passed in as explicit `Except`-valued parameters, mirroring the
`try`/`except` structure of the orchestrators.
-/

namespace AiPrinter

/-- Python `round` / pydub rounding: round half to even, to an integer. -/
def roundHalfEven (q : ℚ) : ℤ :=
  if q - (⌊q⌋ : ℚ) < 1/2 then ⌊q⌋
  else if 1/2 < q - (⌊q⌋ : ℚ) then ⌊q⌋ + 1
  else if 2 ∣ ⌊q⌋ then ⌊q⌋ else ⌊q⌋ + 1

/-- Python `round(x, 2)`: round to two decimal places (half to even). -/
def round2 (q : ℚ) : ℚ := (roundHalfEven (q * 100) : ℚ) / 100

/-! ## Quality Assessor (`enhanced_audio_service.py`, `_calculate_quality_assessment`)

Inputs are flattened from the Python dicts:
`snr` is `features['quality_indicators']['snr_estimate']`,
`speech_ratio` is `vad_result['statistics']['speech_ratio']`,
`dynamic_range` is `features['quality_indicators']['dynamic_range']`,
`confidence` models `transcription_result.get('confidence_score', 0.5)`
(`none` when the key is absent), and `enhancement_improvement` is
`enhancement_result['quality_metrics']['snr_improvement']` when
`enhancement_result` is not `None`. -/

/-- SNR banding: score and appended issue tags (source lines 220-230). -/
def snrAssess (snr : ℚ) : ℚ × List String :=
  if snr > 20 then (1, [])
  else if snr > 10 then (7/10, [])
  else if snr > 0 then (1/2, [])
  else (1/5, ["low_snr"])

/-- Speech-content banding (source lines 232-242). -/
def speechAssess (speech_ratio : ℚ) : ℚ × List String :=
  if speech_ratio > 7/10 then (1, [])
  else if speech_ratio > 2/5 then (4/5, [])
  else if speech_ratio > 1/5 then (3/5, [])
  else (3/10, ["insufficient_speech"])

/-- Dynamic-range banding (source lines 244-252). -/
def dynamicRangeAssess (dynamic_range : ℚ) : ℚ × List String :=
  if dynamic_range > 1/2 then (1, [])
  else if dynamic_range > 1/5 then (7/10, [])
  else (2/5, ["low_dynamic_range"])

/-- Enhancement-effectiveness banding, only when enhancement ran (lines 261-269). -/
def enhancementAssess : Option ℚ → Option ℚ
  | none => none
  | some imp => some (if imp > 5 then 1 else if imp > 2 then 4/5 else 1/2)

/-- The `scores` dict: `enhancement_effectiveness` is `none` when the key was
never inserted (enhancement not run). -/
structure ComponentScores where
  snr : ℚ
  speech_content : ℚ
  dynamic_range : ℚ
  transcription_confidence : ℚ
  enhancement_effectiveness : Option ℚ
deriving Repr, DecidableEq

/-- `sum(scores.get(key, 0.5) * weight for key, weight in weight_map.items())`
with weights {snr: 0.3, speech_content: 0.25, dynamic_range: 0.15,
transcription_confidence: 0.2, enhancement_effectiveness: 0.1} (lines 271-283). -/
def exactWeightedSum (cs : ComponentScores) : ℚ :=
  cs.snr * (3/10) + cs.speech_content * (1/4) + cs.dynamic_range * (3/20)
    + cs.transcription_confidence * (1/5)
    + (cs.enhancement_effectiveness.getD (1/2)) * (1/10)

/-- The grade chain of `_calculate_quality_assessment` (source lines 285-293);
applied to the UNROUNDED weighted sum. -/
def gradeOf (overall : ℚ) : String :=
  if overall ≥ 4/5 then "excellent"
  else if overall ≥ 3/5 then "good"
  else if overall ≥ 2/5 then "fair"
  else "poor"

structure QualityAssessment where
  overall_score : ℚ
  grade : String
  component_scores : ComponentScores
  issues : List String
deriving Repr, DecidableEq

/-- `EnhancedAudioService._calculate_quality_assessment` (lines 203-307).
Note: the returned `overall_score` is `round(overall_score, 2)` while the
grade is computed from the unrounded sum. -/
def calculate_quality_assessment (snr speech_ratio dynamic_range : ℚ)
    (confidence : Option ℚ) (enhancement_improvement : Option ℚ) :
    QualityAssessment :=
  let sa := snrAssess snr
  let spa := speechAssess speech_ratio
  let da := dynamicRangeAssess dynamic_range
  let tc := confidence.getD (1/2)
  let tcIssues := if tc < 3/5 then ["low_transcription_confidence"] else []
  let enh := enhancementAssess enhancement_improvement
  let cs : ComponentScores := ⟨sa.1, spa.1, da.1, tc, enh⟩
  let overall := exactWeightedSum cs
  ⟨round2 overall, gradeOf overall, cs, sa.2 ++ spa.2 ++ da.2 ++ tcIssues⟩

/-! ## Voice Activity Segmenter (`audio_processing.py`, `detect_speech_segments`)

The raw audio is 16-bit mono 16 kHz PCM, so `nSamples` samples make
`2 * nSamples` raw bytes.  The loop walks 30 ms frames of `480` samples
(`960` bytes); the frame classifier `webrtcvad.Vad.is_speech` is an external
black box, modelled as the function `vadFlag : ℕ → Bool` on frame indices.
The timestamp of frame `j` is `(960 * j) / 32000 = 3 * j / 100` seconds.
`pydub`'s `len(audio_segment)` is the duration in whole milliseconds,
`round(1000 * frame_count / frame_rate)` with Python half-even rounding. -/

structure Segment where
  start : ℚ
  stop : ℚ
  duration : ℚ
deriving Repr, DecidableEq

/-- Timestamp (seconds) of the start of frame `j`. -/
def ts (j : ℕ) : ℚ := 3 * j / 100

/-- The frame loop of `detect_speech_segments` (source lines 134-155):
collects closed segments and returns the still-open segment start, if any. -/
def segLoop : ℕ → List Bool → Option ℚ → List Segment × Option ℚ
  | _, [], cur => ([], cur)
  | j, f :: rest, cur =>
    match f, cur with
    | true, none => segLoop (j+1) rest (some (ts j))
    | true, some s => segLoop (j+1) rest (some s)
    | false, none => segLoop (j+1) rest none
    | false, some s =>
      let r := segLoop (j+1) rest none
      (⟨s, ts j, ts j - s⟩ :: r.1, r.2)

/-- Close a trailing open segment at the end-of-stream timestamp `e`
(source lines 157-164). -/
def closeSegs (p : List Segment × Option ℚ) (e : ℚ) : List Segment :=
  p.1 ++ (match p.2 with
    | none => []
    | some s => [⟨s, e, e - s⟩])

structure VadOutput where
  speech_segments : List Segment
  total_duration : ℚ
  speech_duration : ℚ
  silence_duration : ℚ
  speech_ratio : ℚ
  num_segments : ℕ
deriving Repr, DecidableEq

/-- `detect_speech_segments` (source lines 105-183), parameterised by the
black-box per-frame classification `vadFlag`. -/
def detect_speech_segments (nSamples : ℕ) (vadFlag : ℕ → Bool) : VadOutput :=
  let k := nSamples / 480
  let flags := (List.range k).map vadFlag
  let finalTs : ℚ := (nSamples : ℚ) / 16000
  let segments := closeSegs (segLoop 0 flags none) finalTs
  let totalMs : ℤ := roundHalfEven ((nSamples : ℚ) / 16)
  let total : ℚ := (totalMs : ℚ) / 1000
  let speech := (segments.map (·.duration)).sum
  ⟨segments, total, speech, total - speech,
    if total > 0 then speech / total else 0, segments.length⟩

/-- Well-formedness of a closed segment list relative to a lower bound `b` and
an upper bound `e`: segments are ordered, non-overlapping, have positive
duration recorded consistently, and stay within `[b, e]`. -/
def okFrom : ℚ → List Segment → ℚ → Prop
  | b, [], e => b ≤ e
  | b, s :: rest, e =>
    b ≤ s.start ∧ s.start < s.stop ∧ s.duration = s.stop - s.start ∧
      okFrom s.stop rest e

/-! ## Signal Metrics Module (`audio_processing.py`, `calculate_snr`)

The audio is a list of rational amplitudes.  `np.sqrt` and `np.log10` are
transcendental float operations; they are modelled as explicit function
parameters `sqrtQ` and `log10Q`, so every structural property below holds for
any model of those primitives.  `np.percentile(_, 10)` uses numpy's default
linear interpolation between order statistics. -/

/-- Insertion of one element into a sorted list (ascending). -/
def insertSorted (x : ℚ) : List ℚ → List ℚ
  | [] => [x]
  | y :: ys => if x ≤ y then x :: y :: ys else y :: insertSorted x ys

/-- Insertion sort, ascending (model of numpy's internal sort). -/
def sortQ : List ℚ → List ℚ
  | [] => []
  | x :: xs => insertSorted x (sortQ xs)

/-- Mean of a list; Python would raise on an empty mean but every use below is
guarded, and `ℚ` division by zero yields `0`. -/
def qMean (l : List ℚ) : ℚ := l.sum / (l.length : ℚ)

/-- `np.percentile(xs, 10)` with linear interpolation:
position `h = (n-1) * 10 / 100`, result `a[⌊h⌋] + (h - ⌊h⌋) * (a[⌊h⌋+1] - a[⌊h⌋])`
on the sorted data. -/
def percentile10 (xs : List ℚ) : ℚ :=
  let sorted := sortQ xs
  let n := xs.length
  let h : ℚ := ((n : ℚ) - 1) * 10 / 100
  let i : ℕ := (⌊h⌋).toNat
  let lo := sorted.getD i 0
  let hi := sorted.getD (i+1) lo
  lo + (h - (i : ℚ)) * (hi - lo)

/-- `signal_power = np.mean(audio**2)` (source line 270). -/
def signalPower (audio : List ℚ) : ℚ := qMean (audio.map (fun x => x * x))

/-- Number of frames visited by `range(0, len(audio) - frame_size, frame_size)`:
`ceil((len - fs) / fs)` for a positive stop. -/
def numFrames (len fs : ℕ) : ℕ := (len - fs + (fs - 1)) / fs

/-- Per-frame RMS values (source lines 277-280): frame `j` is
`audio[j*fs : j*fs + fs]`, its RMS is `sqrt(mean(frame**2))`. -/
def frameRMS (sqrtQ : ℚ → ℚ) (audio : List ℚ) (fs : ℕ) : List ℚ :=
  (List.range (numFrames audio.length fs)).map
    (fun j => sqrtQ (qMean (((audio.drop (j * fs)).take fs).map (fun x => x * x))))

/-- `noise_estimate = np.percentile(frame_rms, 10)**2` (source line 285). -/
def noiseFloor (sqrtQ : ℚ → ℚ) (audio : List ℚ) : ℚ :=
  let fs := audio.length / 100
  percentile10 (frameRMS sqrtQ audio fs) ^ 2

/-- `calculate_snr` (source lines 267-293), written as the branch chain of the
source: short signal → `0.0`; empty frame list → `0.0` (unreachable when a
frame exists); zero noise floor → `50.0`; otherwise the clamp of
`10 * log10(signal_power / noise_estimate)` (with `snr_db = -50` when the
ratio is non-positive). -/
def calculate_snr (sqrtQ log10Q : ℚ → ℚ) (audio : List ℚ) : ℚ :=
  if audio.length / 100 < 1 then 0
  else if frameRMS sqrtQ audio (audio.length / 100) = [] then 0
  else if noiseFloor sqrtQ audio = 0 then 50
  else if signalPower audio / noiseFloor sqrtQ audio > 0 then
    max (-50) (min 50 (10 * log10Q (signalPower audio / noiseFloor sqrtQ audio)))
  else max (-50) (min 50 (-50))

/-! ## Enhanced audio orchestration
(`enhanced_audio_service.py`, `process_audio_with_enhancement`)

The celery task results and the two Whisper calls are external effects; each is
passed in as an `Except String _` value (`.error` models a raised exception /
task failure / timeout).  Only the fields consumed by the orchestrator are
retained in the payload structures. -/

/-- Relevant slice of `enhance_audio_quality`'s result dict. -/
structure EnhancementOutcome where
  quality_score : ℚ
  snr_improvement : ℚ
deriving Repr, DecidableEq

/-- Relevant slice of `extract_audio_features`'s result dict
(`quality_indicators.snr_estimate` and `quality_indicators.dynamic_range`). -/
structure AudioFeatures where
  snr_estimate : ℚ
  dynamic_range : ℚ
deriving Repr, DecidableEq

/-- Relevant slice of `detect_speech_segments`'s result dict. -/
structure VadStats where
  speech_ratio : ℚ
deriving Repr, DecidableEq

/-- Relevant slice of `_transcribe_audio`'s result dict. -/
structure Transcription where
  text : String
  confidence_score : ℚ
deriving Repr, DecidableEq

/-- The dict returned to the caller.  The success dict carries a full
`QualityAssessment` (`qa_full = some _`) and no `fallback_used`/`error` keys
(modelled as `fallback_used = false`, `error = none`); the fallback dict
carries only `{'overall_score': 0.3, 'issues': ['processing_failed']}`. -/
structure ProcessResult where
  transcription : Transcription
  qa_overall_score : ℚ
  qa_issues : List String
  qa_full : Option QualityAssessment
  enhancement_applied : Bool
  fallback_used : Bool
  error : Option String
deriving Repr, DecidableEq

/-- The `try:` body of `process_audio_with_enhancement` (source lines 50-125):
await enhancement (if enabled), features, VAD, then transcribe and assemble the
quality assessment.  Any raised exception short-circuits as `.error`. -/
def main_processing (enableEnhancement : Bool)
    (enhRes : Except String EnhancementOutcome)
    (featRes : Except String AudioFeatures)
    (vadRes : Except String VadStats)
    (transRes : Except String Transcription) : Except String ProcessResult := do
  let enhOpt ← if enableEnhancement then do
      let e ← enhRes
      pure (some e)
    else pure (none : Option EnhancementOutcome)
  let feats ← featRes
  let vad ← vadRes
  let trans ← transRes
  let qa := calculate_quality_assessment feats.snr_estimate vad.speech_ratio
    feats.dynamic_range (some trans.confidence_score)
    (enhOpt.map (·.snr_improvement))
  pure ⟨trans, qa.overall_score, qa.issues, some qa, enableEnhancement,
    false, none⟩

/-- `process_audio_with_enhancement` (source lines 31-140): on any failure of
the main path, fall back to a basic transcription (`fallbackRes`, the second
Whisper call at quality 0.3); if that also raises, re-raise. -/
def process_audio_with_enhancement (enableEnhancement : Bool)
    (enhRes : Except String EnhancementOutcome)
    (featRes : Except String AudioFeatures)
    (vadRes : Except String VadStats)
    (transRes : Except String Transcription)
    (fallbackRes : Except String Transcription) : Except String ProcessResult :=
  match main_processing enableEnhancement enhRes featRes vadRes transRes with
  | .ok r => .ok r
  | .error e =>
    match fallbackRes with
    | .ok t => .ok ⟨t, 3/10, ["processing_failed"], none, false, true, some e⟩
    | .error fe => .error fe

/-! ## Template Rendering Engine (`template_engine.py`, `render_template`)

Only the variable-substitution fragment of Jinja2 exercised by the claims is
embedded: a template is a token list of literal text and `{{ name }}`
references.  Jinja2's default `Undefined` renders as the empty string when a
referenced variable is absent from the context.  `render_template` injects
`current_date`/`current_time`/`current_year` from the wall clock (source lines
250-258) before merging the caller's variables, caller values taking
precedence (`{**common_vars, **variables}`); the clock is modelled as the
explicit parameter `now`. -/

inductive Tok where
  | text (s : String)
  | var (name : String)
deriving Repr, DecidableEq

/-- The wall-clock-derived common variables. -/
structure Now where
  date : String
  time : String
  year : String
deriving Repr, DecidableEq

/-- First-match lookup; models Python dict lookup on the merged context when
the list has later-shadowed duplicates removed front-first. -/
def lookupVar (vars : List (String × String)) (n : String) : Option String :=
  (vars.find? (fun p => p.1 == n)).map (·.2)

/-- Render one token: a missing variable stringifies to `""`
(Jinja2 default `Undefined`). -/
def renderTok (vars : List (String × String)) : Tok → String
  | .text s => s
  | .var n => (lookupVar vars n).getD ""

/-- Merged render context: caller variables shadow the injected common
variables. -/
def renderVars (now : Now) (varMap : List (String × String)) :
    List (String × String) :=
  varMap ++ [("current_date", now.date), ("current_time", now.time),
    ("current_year", now.year)]

/-- `AdvancedTemplateEngine.render_template` (source lines 226-263) for an
inline template (`template_content` branch).  Total: rendering never raises in
the embedded fragment. -/
def render_template (now : Now) (template_content : List Tok)
    (varMap : List (String × String)) : String :=
  (template_content.map (renderTok (renderVars now varMap))).foldr
    (fun a b => a ++ b) ""

/-- Decidable side condition for idempotence: every variable the template
references is either supplied by the caller or is not one of the injected
clock variables. -/
def noClockLeak (template_content : List Tok)
    (varMap : List (String × String)) : Bool :=
  template_content.all (fun t =>
    match t with
    | .text _ => true
    | .var n => (lookupVar varMap n).isSome
        || !(["current_date", "current_time", "current_year"].contains n))

/-! ## Document Content Generator (`document_processor.py`)

The OpenAI calls of stages 1 and 2 (`_analyze_transcription`,
`_generate_structured_content`) and the Jinja2 render attempt of stage 3
(`_apply_template`) are external effects, passed in as `Except` parameters;
`.error` covers both a raised capability error and unparseable JSON (both are
caught by the same `except` in the source).  The stage-1 analysis result flows
only into the stage-2 prompt string, so it does not appear among the value
parameters.  `datetime.now()` is modelled by the explicit `DocClock`. -/

/-- `l1` is a prefix of `l2` (model of Python's substring primitive). -/
def startsWithL : List Char → List Char → Bool
  | [], _ => true
  | _ :: _, [] => false
  | a :: as, b :: bs => a == b && startsWithL as bs

/-- Python `needle in hay` on strings: contiguous substring test. -/
def containsSub (needle : List Char) : List Char → Bool
  | [] => startsWithL needle []
  | b :: bs => startsWithL needle (b :: bs) || containsSub needle bs

def strContains (needle hay : String) : Bool :=
  containsSub needle.toList hay.toList

/-- Emit the pending (reversed) word, if non-empty. -/
def flushWord (acc : List Char) : List String :=
  if acc.isEmpty then [] else [String.mk acc.reverse]

/-- Worker for `splitWords`: walk the characters, accumulating the current
word (reversed) and flushing it at whitespace. -/
def splitWordsAux : List Char → List Char → List String
  | [], acc => flushWord acc
  | c :: cs, acc =>
    if c.isWhitespace then flushWord acc ++ splitWordsAux cs []
    else splitWordsAux cs (c :: acc)

/-- Python `str.split()` with no argument: split on whitespace runs,
discarding empty pieces. -/
def splitWords (s : String) : List String := splitWordsAux s.toList []

/-- Python `str.lower()` (ASCII-relevant fragment of `String.toLower`). -/
def strLower (s : String) : String := String.mk (s.toList.map Char.toLower)

inductive DocumentType where
  | meeting_minutes
  | letter
  | report
  | announcement
  | flyer
  | custom
deriving Repr, DecidableEq

/-- `DocumentType.value` in `database/models.py`. -/
def DocumentType.value : DocumentType → String
  | .meeting_minutes => "meeting_minutes"
  | .letter => "letter"
  | .report => "report"
  | .announcement => "announcement"
  | .flyer => "flyer"
  | .custom => "custom"

/-- Python `str.title()` applied to the enum values above. -/
def DocumentType.valueTitle : DocumentType → String
  | .meeting_minutes => "Meeting_Minutes"
  | .letter => "Letter"
  | .report => "Report"
  | .announcement => "Announcement"
  | .flyer => "Flyer"
  | .custom => "Custom"

/-- `DocumentGenerationRequest` (fields consumed by the embedded stages). -/
structure DocumentGenerationRequest where
  transcription_text : String
  document_type : DocumentType
  template_id : Option ℕ
  custom_template : Option String
deriving Repr, DecidableEq

/-- One `{"heading": ..., "content": ...}` section; an absent key reads as
`""` via `dict.get`. -/
structure Section where
  heading : String
  content : String
deriving Repr, DecidableEq

/-- The `metadata` sub-dict of structured content. -/
structure SCMetadata where
  word_count : ℕ
  estimated_reading_time : String
  formality_level : String
deriving Repr, DecidableEq

/-- Structured content (stage-2 output).  `title = none` models an absent
`"title"` key in a capability-produced dict. -/
structure StructuredContent where
  title : Option String
  sections : List Section
  metadata : SCMetadata
  template_variables : List (String × String)
deriving Repr, DecidableEq

/-- Metadata of the final result: stage-2 metadata merged with the
post-processing keys (source lines 310-316). -/
structure DocMetadata where
  word_count : ℕ
  estimated_reading_time : String
  formality_level : String
  generation_timestamp : String
  document_type : String
  template_used : Bool
  processing_version : String
deriving Repr, DecidableEq

structure DocumentGenerationResult where
  document_content : String
  formatted_content : String
  metadata : DocMetadata
  quality_score : ℚ
  suggestions : List String
  template_variables : List (String × String)
deriving Repr, DecidableEq

/-- Wall-clock values used by the pipeline (`datetime.now()` renderings). -/
structure DocClock where
  dateStr : String
  isoStr : String
deriving Repr, DecidableEq

/-- The deterministic fallback of `_generate_structured_content`
(source lines 227-248), used when the capability call raises or returns
unparseable JSON. -/
def fallback_structured_content (clock : DocClock)
    (request : DocumentGenerationRequest) : StructuredContent :=
  let wc := (splitWords request.transcription_text).length
  ⟨some (request.document_type.valueTitle ++ " Document"),
    [⟨"Content", request.transcription_text⟩],
    ⟨wc, toString (max 1 (wc / 200)) ++ " minutes", "professional"⟩,
    [("title", request.document_type.valueTitle ++ " Document"),
     ("content", request.transcription_text),
     ("date", clock.dateStr)]⟩

/-- `_format_basic_document` (source lines 353-371). -/
def format_basic_document (sc : StructuredContent) : String :=
  let title := sc.title.getD "Document"
  let parts := ["# " ++ title, ""] ++
    (sc.sections.flatMap (fun s =>
      (if s.heading ≠ "" then ["## " ++ s.heading, ""] else []) ++
        [s.content, ""]))
  String.intercalate "\n" parts

/-- `_extract_plain_content` (source lines 373-382). -/
def extract_plain_content (sc : StructuredContent) : String :=
  String.intercalate "\n\n" (sc.sections.map (·.content))

/-- Python truthiness of `request.template_id` (0 is falsy). -/
def optNatTruthy : Option ℕ → Bool
  | none => false
  | some n => n != 0

/-- Python truthiness of `request.custom_template` ("" is falsy). -/
def optStrTruthy : Option String → Bool
  | none => false
  | some s => s != ""

/-- Content-completeness addend of `_calculate_quality_score` (lines 393-400). -/
def completenessScore (sc : StructuredContent) : ℚ :=
  if sc.sections.length ≥ 3 then 3/10
  else if sc.sections.length ≥ 2 then 1/5
  else if sc.sections.length ≥ 1 then 1/10
  else 0

/-- Word-count addend of `_calculate_quality_score` (lines 402-409);
`word_count = len(formatted_content.split())`. -/
def wordCountScore (formatted_content : String) : ℚ :=
  if 100 ≤ (splitWords formatted_content).length
      ∧ (splitWords formatted_content).length ≤ 2000 then 1/5
  else if (50 ≤ (splitWords formatted_content).length
        ∧ (splitWords formatted_content).length ≤ 100) ∨
      (2000 ≤ (splitWords formatted_content).length
        ∧ (splitWords formatted_content).length ≤ 3000) then 3/20
  else 1/10

/-- Structure addends of `_calculate_quality_score` (lines 411-415). -/
def titleScore (sc : StructuredContent) : ℚ :=
  if optStrTruthy sc.title then 1/10 else 0

def headingScore (sc : StructuredContent) : ℚ :=
  if sc.sections.length > 0 ∧ sc.sections.all (fun s => s.heading ≠ "") then 3/20
  else 0

/-- Template-usage addend of `_calculate_quality_score` (lines 417-421);
Python truthiness, so `template_id = 0` and `custom_template = ""` count as
absent. -/
def templateScore (request : DocumentGenerationRequest) : ℚ :=
  if optNatTruthy request.template_id || optStrTruthy request.custom_template
  then 3/20 else 1/20

/-- `set(text.lower().split())` as a deduplicated token list. -/
def tokenSet (text : String) : List String :=
  (splitWords (strLower text)).dedup

/-- `len(transcription_words.intersection(content_words))`. -/
def overlapCount (transcription content : String) : ℕ :=
  ((tokenSet transcription).filter
    (fun w => (tokenSet content).contains w)).length

/-- Content-relevance addend of `_calculate_quality_score` (lines 423-431):
set-overlap of lowercased whitespace tokens. -/
def relevanceScore (formatted_content : String)
    (request : DocumentGenerationRequest) : ℚ :=
  if (overlapCount request.transcription_text formatted_content : ℚ)
      > ((tokenSet request.transcription_text).length : ℚ) * (3/10) then 1/10
  else if (overlapCount request.transcription_text formatted_content : ℚ)
      > ((tokenSet request.transcription_text).length : ℚ) * (1/10) then 1/20
  else 0

/-- `_calculate_quality_score` (source lines 384-433). -/
def calculate_quality_score (sc : StructuredContent) (formatted_content : String)
    (request : DocumentGenerationRequest) : ℚ :=
  min 1 (completenessScore sc + wordCountScore formatted_content
    + titleScore sc + headingScore sc + templateScore request
    + relevanceScore formatted_content request)

/-- The Python `TypeError` raised by `any(<bool>)`. -/
def anyBoolTypeError : String := "TypeError: bool object is not iterable"

/-- `_generate_suggestions` (source lines 435-465).  For
`DocumentType.LETTER` the source evaluates
`any("dear" in formatted_content.lower() or "hello" in formatted_content.lower())`:
the argument of `any` is a single `bool`, which is not iterable, so the call
raises `TypeError` unconditionally — modelled as `.error`. -/
def generate_suggestions (sc : StructuredContent) (formatted_content : String)
    (request : DocumentGenerationRequest) : Except String (List String) :=
  let word_count := (splitWords formatted_content).length
  let s1 : List String :=
    if word_count < 50 then
      ["Consider adding more detail to make the document more comprehensive"]
    else if word_count > 2000 then
      ["Consider condensing the content for better readability"]
    else []
  let s2 : List String :=
    if sc.sections.length < 2 then
      ["Add more sections to improve document structure"]
    else []
  match request.document_type with
  | .meeting_minutes =>
    let s3 : List String :=
      if ¬ (sc.sections.any
          (fun s => strContains "action" (strLower s.heading)))
      then ["Consider adding an action items section"] else []
    .ok (s1 ++ s2 ++ s3)
  | .letter => .error anyBoolTypeError
  | _ => .ok (s1 ++ s2)

/-- `_post_process_document` (source lines 291-325). -/
def post_process_document (clock : DocClock) (sc : StructuredContent)
    (formatted_content : String) (request : DocumentGenerationRequest) :
    Except String DocumentGenerationResult := do
  let quality_score := calculate_quality_score sc formatted_content request
  let suggestions ← generate_suggestions sc formatted_content request
  let metadata : DocMetadata :=
    ⟨sc.metadata.word_count, sc.metadata.estimated_reading_time,
      sc.metadata.formality_level, clock.isoStr, request.document_type.value,
      request.template_id.isSome || request.custom_template.isSome, "2.0"⟩
  pure ⟨extract_plain_content sc, formatted_content, metadata, quality_score,
    suggestions, sc.template_variables⟩

/-- `generate_document` (source lines 60-97).  `generateRes` is the outcome of
the stage-2 capability call plus JSON parse; `renderRes` is the outcome of the
template-engine render chosen in `_apply_template` (for the default-template
path the database loader always raises `TemplateNotFound`, so `renderRes` is an
`.error` there).  The outer `except` merely logs and re-raises. -/
def generate_document (clock : DocClock) (request : DocumentGenerationRequest)
    (generateRes : Except String StructuredContent)
    (renderRes : Except String String) : Except String DocumentGenerationResult :=
  let structured := match generateRes with
    | .ok sc => sc
    | .error _ => fallback_structured_content clock request
  let formatted := match renderRes with
    | .ok s => s
    | .error _ => format_basic_document structured
  post_process_document clock structured formatted request

/-- The fixture transcript of the spec scenario. -/
def fixtureTranscript : String :=
  "Team meeting about Q3 roadmap. John will send the budget by Friday."

def fixtureClock : DocClock := ⟨"June 01, 2025", "2025-06-01T00:00:00"⟩

/-- The spec scenario request: fixture transcript, meeting minutes, no
template selection. -/
def fixtureRequest : DocumentGenerationRequest :=
  ⟨fixtureTranscript, .meeting_minutes, none, none⟩

/-- The same request with `document_type = LETTER`. -/
def letterRequest : DocumentGenerationRequest :=
  ⟨fixtureTranscript, .letter, none, none⟩

/-! ## Auxiliary lemmas: rounding and segment well-formedness -/

theorem roundHalfEven_intCast (m : ℤ) : roundHalfEven (m : ℚ) = m := by
  unfold roundHalfEven
  simp

theorem floor_le_roundHalfEven (q : ℚ) : ⌊q⌋ ≤ roundHalfEven q := by
  unfold roundHalfEven
  split
  · exact le_refl _
  · split
    · exact Int.le_add_one (le_refl _)
    · split
      · exact le_refl _
      · exact Int.le_add_one (le_refl _)

theorem le_roundHalfEven (q : ℚ) (m : ℤ) (h : (m : ℚ) ≤ q) : m ≤ roundHalfEven q :=
  le_trans (Int.le_floor.mpr h) (floor_le_roundHalfEven q)

theorem roundHalfEven_le (q : ℚ) (m : ℤ) (h : q ≤ (m : ℚ)) : roundHalfEven q ≤ m := by
  have hfl : ⌊q⌋ ≤ m := by
    have := Int.floor_le_floor h
    simpa using this
  have hstep : (⌊q⌋ : ℚ) < q → ⌊q⌋ + 1 ≤ m := by
    intro hlt
    have : (⌊q⌋ : ℚ) < (m : ℚ) := lt_of_lt_of_le hlt h
    exact Int.add_one_le_iff.mpr (by exact_mod_cast this)
  unfold roundHalfEven
  split
  · exact hfl
  · rename_i h1
    push_neg at h1
    have hpos : (0 : ℚ) < q - (⌊q⌋ : ℚ) := lt_of_lt_of_le (by norm_num) h1
    have hlt : (⌊q⌋ : ℚ) < q := by linarith
    split
    · exact hstep hlt
    · split
      · exact hfl
      · exact hstep hlt

theorem okFrom_mono {b' b e : ℚ} {segs : List Segment} (h : b' ≤ b)
    (hok : okFrom b segs e) : okFrom b' segs e := by
  cases segs with
  | nil => exact le_trans h hok
  | cons s rest =>
    obtain ⟨h1, h2, h3, h4⟩ := hok
    exact ⟨le_trans h h1, h2, h3, h4⟩

theorem okFrom_chain {b e : ℚ} {segs : List Segment} (hok : okFrom b segs e) :
    segs.Chain' (fun a c => a.stop ≤ c.start) := by
  induction segs generalizing b with
  | nil => exact List.chain'_nil
  | cons s rest ih =>
    obtain ⟨_, _, _, h4⟩ := hok
    refine List.chain'_cons'.mpr ⟨?_, ih h4⟩
    intro c hc
    cases rest with
    | nil => simp at hc
    | cons c0 rest0 =>
      simp at hc
      rw [← hc]
      exact h4.1

theorem okFrom_stop_le {b e : ℚ} {segs : List Segment} (hok : okFrom b segs e) :
    ∀ s ∈ segs, s.stop ≤ e := by
  induction segs generalizing b with
  | nil => intro s hs; simp at hs
  | cons s0 rest ih =>
    obtain ⟨h1, h2, h3, h4⟩ := hok
    intro s hs
    rcases List.mem_cons.mp hs with h | h
    · subst h
      cases rest with
      | nil => simpa [okFrom] using h4
      | cons c0 rest0 =>
        obtain ⟨g1, g2, g3, g4⟩ := h4
        have hc0 : c0.stop ≤ e := ih ⟨g1, g2, g3, g4⟩ c0 (List.mem_cons_self c0 rest0)
        have hlt : s.stop < c0.stop := lt_of_le_of_lt g1 g2
        exact le_of_lt (lt_of_lt_of_le hlt hc0)
    · exact ih h4 s h

theorem okFrom_sum {b e : ℚ} {segs : List Segment} (hok : okFrom b segs e) :
    (segs.map (·.duration)).sum ≤ e - b := by
  induction segs generalizing b with
  | nil => simpa using hok
  | cons s rest ih =>
    obtain ⟨h1, h2, h3, h4⟩ := hok
    have htail := ih h4
    simp only [List.map_cons, List.sum_cons]
    rw [h3]
    linarith

theorem okFrom_sum_nonneg {b e : ℚ} {segs : List Segment}
    (hok : okFrom b segs e) : 0 ≤ (segs.map (·.duration)).sum := by
  induction segs generalizing b with
  | nil => simp
  | cons s rest ih =>
    obtain ⟨h1, h2, h3, h4⟩ := hok
    have htail := ih h4
    simp only [List.map_cons, List.sum_cons]
    rw [h3]
    linarith

theorem ts_mono {i j : ℕ} (h : i ≤ j) : ts i ≤ ts j := by
  unfold ts
  have : (i : ℚ) ≤ (j : ℚ) := by exact_mod_cast h
  linarith

/-- Main invariant of the frame loop: closing the loop state at any time `e`
past the last frame yields a well-formed segment list. -/
theorem segLoop_ok (flags : List Bool) : ∀ (j : ℕ) (cur : Option ℚ) (e : ℚ),
    (∀ s0, cur = some s0 → s0 + 3/100 ≤ ts j) →
    ts (j + flags.length) ≤ e →
    okFrom (match cur with | some s0 => s0 | none => ts j)
      (closeSegs (segLoop j flags cur) e) e := by
  induction flags with
  | nil =>
    intro j cur e hcur he
    cases cur with
    | none => simpa [segLoop, closeSegs, okFrom] using he
    | some s0 =>
      have hs0 := hcur s0 rfl
      simp only [List.length_nil, Nat.add_zero] at he
      refine ⟨le_refl _, ?_, by ring, ?_⟩
      · linarith
      · simp [okFrom]
  | cons f rest ih =>
    intro j cur e hcur he
    have he' : ts (j + 1 + rest.length) ≤ e := by
      have : j + 1 + rest.length = j + (f :: rest).length := by
        simp [List.length_cons]; omega
      rwa [this]
    cases f with
    | true =>
      cases cur with
      | none =>
        have h1 : ∀ s0, some (ts j) = some s0 → s0 + 3/100 ≤ ts (j+1) := by
          intro s0 hs0
          injection hs0 with hs0
          subst hs0
          unfold ts
          push_cast
          linarith
        have := ih (j+1) (some (ts j)) e h1 he'
        simpa [segLoop] using this
      | some s0 =>
        have h1 : ∀ s1, (some s0 : Option ℚ) = some s1 → s1 + 3/100 ≤ ts (j+1) := by
          intro s1 hs1
          injection hs1 with hs1
          subst hs1
          exact le_trans (hcur s0 rfl) (ts_mono (Nat.le_succ j))
        have := ih (j+1) (some s0) e h1 he'
        simpa [segLoop] using this
    | false =>
      cases cur with
      | none =>
        have h1 : ∀ s0, (none : Option ℚ) = some s0 → s0 + 3/100 ≤ ts (j+1) := by
          intro s0 hs0; cases hs0
        have := ih (j+1) none e h1 he'
        have hmono : ts j ≤ ts (j+1) := ts_mono (Nat.le_succ j)
        exact okFrom_mono hmono (by simpa [segLoop] using this)
      | some s0 =>
        have hs0 := hcur s0 rfl
        have h1 : ∀ s1, (none : Option ℚ) = some s1 → s1 + 3/100 ≤ ts (j+1) := by
          intro s1 hs1; cases hs1
        have htail := ih (j+1) none e h1 he'
        simp only [segLoop, closeSegs] at htail ⊢
        refine ⟨le_refl _, by linarith, by ring, ?_⟩
        exact okFrom_mono (ts_mono (Nat.le_succ j)) (by simpa using htail)

/-- Specialisation to `detect_speech_segments`: the produced segment list is
well-formed between `0` and the final timestamp. -/
theorem detect_segments_ok (nSamples : ℕ) (vadFlag : ℕ → Bool) :
    okFrom 0 (detect_speech_segments nSamples vadFlag).speech_segments
      ((nSamples : ℚ) / 16000) := by
  have hts : ts (0 + ((List.range (nSamples / 480)).map vadFlag).length)
      ≤ (nSamples : ℚ) / 16000 := by
    simp only [List.length_map, List.length_range, Nat.zero_add]
    unfold ts
    rw [div_le_div_iff₀ (by norm_num) (by norm_num)]
    have : ((nSamples / 480 : ℕ) : ℚ) * 480 ≤ (nSamples : ℚ) := by
      exact_mod_cast (by omega : (nSamples / 480) * 480 ≤ nSamples)
    linarith
  have := segLoop_ok ((List.range (nSamples / 480)).map vadFlag) 0 none
    ((nSamples : ℚ) / 16000) (by intro s0 h; cases h) hts
  have h0 : ts 0 = 0 := by unfold ts; norm_num
  rw [h0] at this
  exact this

/-! ## Theorems: Quality Assessor claims -/

theorem snrAssess_bounds (x : ℚ) : 0 ≤ (snrAssess x).1 ∧ (snrAssess x).1 ≤ 1 := by
  unfold snrAssess
  split_ifs <;> norm_num

theorem speechAssess_bounds (x : ℚ) :
    0 ≤ (speechAssess x).1 ∧ (speechAssess x).1 ≤ 1 := by
  unfold speechAssess
  split_ifs <;> norm_num

theorem dynamicRangeAssess_bounds (x : ℚ) :
    0 ≤ (dynamicRangeAssess x).1 ∧ (dynamicRangeAssess x).1 ≤ 1 := by
  unfold dynamicRangeAssess
  split_ifs <;> norm_num

theorem enhGetD_bounds (o : Option ℚ) :
    0 ≤ (enhancementAssess o).getD (1/2) ∧ (enhancementAssess o).getD (1/2) ≤ 1 := by
  cases o with
  | none => norm_num [enhancementAssess]
  | some imp =>
    simp only [enhancementAssess, Option.getD_some]
    split_ifs <;> norm_num

theorem round2_mem_unit {q : ℚ} (h0 : 0 ≤ q) (h1 : q ≤ 1) :
    0 ≤ round2 q ∧ round2 q ≤ 1 := by
  have hlo : (0 : ℤ) ≤ roundHalfEven (q * 100) :=
    le_roundHalfEven _ 0 (by push_cast; linarith)
  have hhi : roundHalfEven (q * 100) ≤ 100 :=
    roundHalfEven_le _ 100 (by push_cast; linarith)
  unfold round2
  constructor
  · apply div_nonneg _ (by norm_num)
    exact_mod_cast hlo
  · rw [div_le_one (by norm_num)]
    exact_mod_cast hhi

/-- C3 (amended): the returned `overall_score` is the weighted sum of the
component scores (weights snr 0.30, speech 0.25, dynamic range 0.15,
transcription confidence 0.20, enhancement 0.10; a missing enhancement
component contributes the neutral default 0.5) ROUNDED to two decimal places —
not the exact sum, and no clamp is applied; whenever the pass-through
confidence lies in [0,1] the result lies in [0,1] anyway; all components 1.0
give overall 1.0, and the weighted-sum formula on all-zero components gives 0. -/
theorem overall_score_eq_round2_weighted_sum
    (snr speech_ratio dynamic_range : ℚ)
    (confidence enhancement_improvement : Option ℚ) :
    (calculate_quality_assessment snr speech_ratio dynamic_range confidence
        enhancement_improvement).overall_score
      = round2 (exactWeightedSum (calculate_quality_assessment snr speech_ratio
        dynamic_range confidence enhancement_improvement).component_scores)
    ∧ ((∀ c ∈ confidence, 0 ≤ c ∧ c ≤ 1) →
        0 ≤ (calculate_quality_assessment snr speech_ratio dynamic_range
          confidence enhancement_improvement).overall_score ∧
        (calculate_quality_assessment snr speech_ratio dynamic_range
          confidence enhancement_improvement).overall_score ≤ 1)
    ∧ (calculate_quality_assessment 25 (4/5) (3/5) (some 1)
        (some 7)).overall_score = 1
    ∧ round2 (exactWeightedSum ⟨0, 0, 0, 0, some 0⟩) = 0 := by
  refine ⟨rfl, ?_, ?_, ?_⟩
  · intro hconf
    have htc : 0 ≤ confidence.getD (1/2) ∧ confidence.getD (1/2) ≤ 1 := by
      cases confidence with
      | none => norm_num
      | some c =>
        simpa using hconf c (by simp)
    have hs := snrAssess_bounds snr
    have hp := speechAssess_bounds speech_ratio
    have hd := dynamicRangeAssess_bounds dynamic_range
    have he := enhGetD_bounds enhancement_improvement
    show 0 ≤ round2 (exactWeightedSum ⟨(snrAssess snr).1,
        (speechAssess speech_ratio).1, (dynamicRangeAssess dynamic_range).1,
        confidence.getD (1/2), enhancementAssess enhancement_improvement⟩)
      ∧ round2 (exactWeightedSum ⟨(snrAssess snr).1,
        (speechAssess speech_ratio).1, (dynamicRangeAssess dynamic_range).1,
        confidence.getD (1/2), enhancementAssess enhancement_improvement⟩) ≤ 1
    apply round2_mem_unit
    · unfold exactWeightedSum
      simp only
      nlinarith [hs.1, hs.2, hp.1, hp.2, hd.1, hd.2, he.1, he.2, htc.1, htc.2]
    · unfold exactWeightedSum
      simp only
      nlinarith [hs.1, hs.2, hp.1, hp.2, hd.1, hd.2, he.1, he.2, htc.1, htc.2]
  · norm_num [calculate_quality_assessment, snrAssess, speechAssess,
      dynamicRangeAssess, enhancementAssess, exactWeightedSum, round2,
      roundHalfEven]
  · norm_num [exactWeightedSum, round2, roundHalfEven]

/-- C3 witness: concrete instantiation of the amended theorem. -/
theorem overall_score_eq_round2_weighted_sum_witness :
    (calculate_quality_assessment 25 (4/5) (3/5) (some 1) (some 7)).overall_score
      = round2 (exactWeightedSum (calculate_quality_assessment 25 (4/5) (3/5)
        (some 1) (some 7)).component_scores)
    ∧ 0 ≤ (calculate_quality_assessment 25 (4/5) (3/5) (some 1)
        (some 7)).overall_score := by
  have h := overall_score_eq_round2_weighted_sum 25 (4/5) (3/5) (some 1) (some 7)
  refine ⟨h.1, (h.2.1 ?_).1⟩
  intro c hc
  simp only [Option.mem_def, Option.some.injEq] at hc
  subst hc
  norm_num

/-- C3 counterexample: with component scores (1.0, 0.8, 0.7, 0.777, 0.5) the
code returns 0.81, but the exact weighted sum (clamped to [0,1]) is 0.8104, so
`overall_score` does NOT equal the exact clamped weighted sum. -/
theorem overall_score_not_exact_weighted_sum :
    (calculate_quality_assessment 25 (1/2) (3/10) (some (777/1000))
        (some 1)).overall_score
      ≠ min 1 (max 0 (exactWeightedSum (calculate_quality_assessment 25 (1/2)
        (3/10) (some (777/1000)) (some 1)).component_scores)) := by
  norm_num [calculate_quality_assessment, snrAssess, speechAssess,
    dynamicRangeAssess, enhancementAssess, exactWeightedSum, round2,
    roundHalfEven]

theorem gradeOf_spec (w : ℚ) :
    (gradeOf w = "excellent" ↔ 4/5 ≤ w)
    ∧ (gradeOf w = "good" ↔ 3/5 ≤ w ∧ w < 4/5)
    ∧ (gradeOf w = "fair" ↔ 2/5 ≤ w ∧ w < 3/5)
    ∧ (gradeOf w = "poor" ↔ w < 2/5) := by
  unfold gradeOf
  split_ifs with h1 h2 h3 <;>
    refine ⟨?_, ?_, ?_, ?_⟩ <;> simp_all <;>
    first
      | linarith
      | (intro h; linarith)

/-- C4 (amended): the grade thresholds (0.8 / 0.6 / 0.4) are applied to the
UNROUNDED weighted sum of the component scores, not to the returned (rounded)
`overall_score`. -/
theorem grade_matches_unrounded_thresholds
    (snr speech_ratio dynamic_range : ℚ)
    (confidence enhancement_improvement : Option ℚ) :
    ((calculate_quality_assessment snr speech_ratio dynamic_range confidence
        enhancement_improvement).grade = "excellent"
      ↔ 4/5 ≤ exactWeightedSum (calculate_quality_assessment snr speech_ratio
        dynamic_range confidence enhancement_improvement).component_scores)
    ∧ ((calculate_quality_assessment snr speech_ratio dynamic_range confidence
        enhancement_improvement).grade = "good"
      ↔ 3/5 ≤ exactWeightedSum (calculate_quality_assessment snr speech_ratio
          dynamic_range confidence enhancement_improvement).component_scores
        ∧ exactWeightedSum (calculate_quality_assessment snr speech_ratio
          dynamic_range confidence enhancement_improvement).component_scores
          < 4/5)
    ∧ ((calculate_quality_assessment snr speech_ratio dynamic_range confidence
        enhancement_improvement).grade = "fair"
      ↔ 2/5 ≤ exactWeightedSum (calculate_quality_assessment snr speech_ratio
          dynamic_range confidence enhancement_improvement).component_scores
        ∧ exactWeightedSum (calculate_quality_assessment snr speech_ratio
          dynamic_range confidence enhancement_improvement).component_scores
          < 3/5)
    ∧ ((calculate_quality_assessment snr speech_ratio dynamic_range confidence
        enhancement_improvement).grade = "poor"
      ↔ exactWeightedSum (calculate_quality_assessment snr speech_ratio
          dynamic_range confidence enhancement_improvement).component_scores
        < 2/5) :=
  gradeOf_spec _

/-- C4 counterexample: at SNR 25 dB, speech ratio 0.8, dynamic range 0.3,
confidence 0.205, SNR improvement 7 dB the unrounded sum is 0.796, the
returned `overall_score` is the rounded 0.80, and the grade is "good" — so
"the grade is excellent iff the returned overall_score is >= 0.8" is false. -/
theorem grade_not_iff_returned_score :
    ¬ (((calculate_quality_assessment 25 (4/5) (3/10) (some (41/200))
          (some 7)).grade = "excellent")
        ↔ (4/5 ≤ (calculate_quality_assessment 25 (4/5) (3/10) (some (41/200))
          (some 7)).overall_score)) := by
  norm_num [calculate_quality_assessment, snrAssess, speechAssess,
    dynamicRangeAssess, enhancementAssess, exactWeightedSum, round2,
    roundHalfEven, gradeOf]
  decide

/-- C5 (confirmed): the SNR component follows the fixed bands
(>20 dB → 1.0, >10 → 0.7, >0 → 0.5, else 0.2 with issue `low_snr`);
speech_ratio 0.15 gives speech component 0.3 with issue `insufficient_speech`;
and a 7 dB SNR improvement gives enhancement component 1.0. -/
theorem component_threshold_bands (snr speech_ratio dynamic_range : ℚ)
    (confidence enhancement_improvement : Option ℚ) :
    (20 < snr → (calculate_quality_assessment snr speech_ratio dynamic_range
      confidence enhancement_improvement).component_scores.snr = 1)
    ∧ (10 < snr → snr ≤ 20 → (calculate_quality_assessment snr speech_ratio
      dynamic_range confidence enhancement_improvement).component_scores.snr
        = 7/10)
    ∧ (0 < snr → snr ≤ 10 → (calculate_quality_assessment snr speech_ratio
      dynamic_range confidence enhancement_improvement).component_scores.snr
        = 1/2)
    ∧ (snr ≤ 0 → (calculate_quality_assessment snr speech_ratio dynamic_range
        confidence enhancement_improvement).component_scores.snr = 1/5
      ∧ "low_snr" ∈ (calculate_quality_assessment snr speech_ratio
        dynamic_range confidence enhancement_improvement).issues)
    ∧ (calculate_quality_assessment snr (3/20) dynamic_range confidence
        enhancement_improvement).component_scores.speech_content = 3/10
    ∧ "insufficient_speech" ∈ (calculate_quality_assessment snr (3/20)
        dynamic_range confidence enhancement_improvement).issues
    ∧ (calculate_quality_assessment snr speech_ratio dynamic_range confidence
        (some 7)).component_scores.enhancement_effectiveness = some 1 := by
  refine ⟨?_, ?_, ?_, ?_, ?_, ?_, ?_⟩
  · intro h
    show (snrAssess snr).1 = 1
    unfold snrAssess
    rw [if_pos h]
  · intro h10 h20
    show (snrAssess snr).1 = 7/10
    unfold snrAssess
    rw [if_neg (not_lt.mpr h20), if_pos h10]
  · intro h0 h10
    show (snrAssess snr).1 = 1/2
    unfold snrAssess
    rw [if_neg (not_lt.mpr (h10.trans (by norm_num))),
      if_neg (not_lt.mpr h10), if_pos h0]
  · intro h
    have hs2 : (snrAssess snr).2 = ["low_snr"] := by
      unfold snrAssess
      rw [if_neg (not_lt.mpr (h.trans (by norm_num))),
        if_neg (not_lt.mpr (h.trans (by norm_num))), if_neg (not_lt.mpr h)]
    constructor
    · show (snrAssess snr).1 = 1/5
      unfold snrAssess
      rw [if_neg (not_lt.mpr (h.trans (by norm_num))),
        if_neg (not_lt.mpr (h.trans (by norm_num))), if_neg (not_lt.mpr h)]
    · show "low_snr" ∈ (snrAssess snr).2 ++ (speechAssess speech_ratio).2
        ++ (dynamicRangeAssess dynamic_range).2
        ++ (if confidence.getD (1/2) < 3/5
          then ["low_transcription_confidence"] else [])
      rw [hs2]
      simp
  · show (speechAssess (3/20)).1 = 3/10
    norm_num [speechAssess]
  · have hp2 : (speechAssess (3/20)).2 = ["insufficient_speech"] := by
      norm_num [speechAssess]
    show "insufficient_speech" ∈ (snrAssess snr).2 ++ (speechAssess (3/20)).2
      ++ (dynamicRangeAssess dynamic_range).2
      ++ (if confidence.getD (1/2) < 3/5
        then ["low_transcription_confidence"] else [])
    rw [hp2]
    simp
  · show enhancementAssess (some 7) = some 1
    norm_num [enhancementAssess]

/-- C5 witness: the bands at SNR 25 / 15 / 5 / −1 dB, speech ratio 0.15, and
SNR improvement 7 dB. -/
theorem component_threshold_bands_witness :
    (calculate_quality_assessment 25 (1/2) (1/2) none none).component_scores.snr
        = 1
    ∧ (calculate_quality_assessment 15 (1/2) (1/2) none
        none).component_scores.snr = 7/10
    ∧ (calculate_quality_assessment 5 (1/2) (1/2) none
        none).component_scores.snr = 1/2
    ∧ (calculate_quality_assessment (-1) (1/2) (1/2) none
        none).component_scores.snr = 1/5
    ∧ "low_snr" ∈ (calculate_quality_assessment (-1) (1/2) (1/2) none
        none).issues
    ∧ (calculate_quality_assessment 25 (3/20) (1/2) none
        none).component_scores.speech_content = 3/10
    ∧ "insufficient_speech" ∈ (calculate_quality_assessment 25 (3/20) (1/2)
        none none).issues
    ∧ (calculate_quality_assessment 25 (1/2) (1/2) none
        (some 7)).component_scores.enhancement_effectiveness = some 1 := by
  refine ⟨(component_threshold_bands 25 (1/2) (1/2) none none).1 (by norm_num),
    (component_threshold_bands 15 (1/2) (1/2) none none).2.1 (by norm_num)
      (by norm_num),
    (component_threshold_bands 5 (1/2) (1/2) none none).2.2.1 (by norm_num)
      (by norm_num),
    ((component_threshold_bands (-1) (1/2) (1/2) none none).2.2.2.1
      (by norm_num)).1,
    ((component_threshold_bands (-1) (1/2) (1/2) none none).2.2.2.1
      (by norm_num)).2,
    (component_threshold_bands 25 (1/2) (1/2) none none).2.2.2.2.1,
    (component_threshold_bands 25 (1/2) (1/2) none none).2.2.2.2.2.1,
    (component_threshold_bands 25 (1/2) (1/2) none
      none).2.2.2.2.2.2⟩

/-! ## Theorems: Voice Activity Segmenter claims -/

theorem detect_speech_duration_def (n : ℕ) (f : ℕ → Bool) :
    (detect_speech_segments n f).speech_duration
      = ((detect_speech_segments n f).speech_segments.map (·.duration)).sum := rfl

theorem detect_silence_def (n : ℕ) (f : ℕ → Bool) :
    (detect_speech_segments n f).silence_duration
      = (detect_speech_segments n f).total_duration
        - (detect_speech_segments n f).speech_duration := rfl

theorem detect_ratio_def (n : ℕ) (f : ℕ → Bool) :
    (detect_speech_segments n f).speech_ratio
      = if (detect_speech_segments n f).total_duration > 0
        then (detect_speech_segments n f).speech_duration
          / (detect_speech_segments n f).total_duration
        else 0 := rfl

theorem detect_total_def (n : ℕ) (f : ℕ → Bool) :
    (detect_speech_segments n f).total_duration
      = (roundHalfEven ((n : ℚ) / 16) : ℚ) / 1000 := rfl

/-- C6 (amended): VAD segments are sorted by start and non-overlapping
(`stop ≤` next `start`), a trailing open segment is closed at (so every
segment ends by) the final timestamp `nSamples/16000`,
`speech_duration + silence_duration = total_duration`, `speech_ratio ≥ 0`
(and `= 0` when `total_duration = 0`), and `speech_ratio ≤ 1` whenever the
sample count is a whole number of 30 ms frames.  The unrestricted claim
`speech_ratio ≤ 1` is FALSE because `total_duration` is pydub's
millisecond-rounded length while a trailing open segment is closed at the
exact end-of-stream timestamp (see the counterexample theorem). -/
theorem detect_speech_segments_invariants (nSamples : ℕ) (vadFlag : ℕ → Bool) :
    (detect_speech_segments nSamples vadFlag).speech_segments.Chain'
      (fun a c => a.stop ≤ c.start)
    ∧ (∀ s ∈ (detect_speech_segments nSamples vadFlag).speech_segments,
        s.stop ≤ (nSamples : ℚ) / 16000)
    ∧ (detect_speech_segments nSamples vadFlag).speech_duration
        + (detect_speech_segments nSamples vadFlag).silence_duration
      = (detect_speech_segments nSamples vadFlag).total_duration
    ∧ 0 ≤ (detect_speech_segments nSamples vadFlag).speech_ratio
    ∧ ((detect_speech_segments nSamples vadFlag).total_duration = 0 →
        (detect_speech_segments nSamples vadFlag).speech_ratio = 0)
    ∧ (480 ∣ nSamples →
        (detect_speech_segments nSamples vadFlag).speech_ratio ≤ 1) := by
  have hok := detect_segments_ok nSamples vadFlag
  have hspeech0 : 0 ≤ (detect_speech_segments nSamples vadFlag).speech_duration := by
    rw [detect_speech_duration_def]
    exact okFrom_sum_nonneg hok
  refine ⟨okFrom_chain hok, okFrom_stop_le hok, ?_, ?_, ?_, ?_⟩
  · rw [detect_silence_def]
    ring
  · rw [detect_ratio_def]
    split
    · rename_i h
      exact div_nonneg hspeech0 (le_of_lt h)
    · exact le_refl 0
  · intro h0
    rw [detect_ratio_def, h0]
    norm_num
  · rintro ⟨m, rfl⟩
    have htot : (detect_speech_segments (480 * m) vadFlag).total_duration
        = 3 * (m : ℚ) / 100 := by
      rw [detect_total_def]
      have hcast : ((480 * m : ℕ) : ℚ) / 16 = ((30 * (m : ℤ) : ℤ) : ℚ) := by
        push_cast
        ring
      rw [hcast, roundHalfEven_intCast]
      push_cast
      ring
    have hfin : ((480 * m : ℕ) : ℚ) / 16000 = 3 * (m : ℚ) / 100 := by
      push_cast
      ring
    have hsp : (detect_speech_segments (480 * m) vadFlag).speech_duration
        ≤ 3 * (m : ℚ) / 100 := by
      rw [detect_speech_duration_def]
      have := okFrom_sum hok
      rw [hfin] at this
      linarith
    rw [detect_ratio_def, htot]
    split
    · rename_i h
      rw [div_le_one h]
      exact hsp
    · norm_num

/-- C6 counterexample: 968 samples (two full 30 ms frames plus a partial
frame) with both frames classified as speech.  The trailing open segment is
closed at the exact final timestamp 0.0605 s, while pydub reports
`round(968/16) = 60` ms, so `speech_ratio = 121/120 > 1`. -/
theorem speech_ratio_can_exceed_one :
    ¬ ((detect_speech_segments 968 (fun _ => true)).speech_ratio ≤ 1) := by
  norm_num [detect_speech_segments, closeSegs, segLoop, ts, roundHalfEven,
    List.range_succ]

/-- C6 witness: for 960 samples (exactly two frames, all speech) the ratio is
within [0,1]; for an empty stream the total duration is 0 and the ratio is 0. -/
theorem detect_speech_segments_invariants_witness :
    (detect_speech_segments 960 (fun _ => true)).speech_ratio ≤ 1
    ∧ (detect_speech_segments 0 (fun _ => true)).speech_ratio = 0
    ∧ 0 ≤ (detect_speech_segments 960 (fun _ => true)).speech_ratio := by
  have h0 : (detect_speech_segments 0 (fun _ => true)).total_duration = 0 := by
    rw [detect_total_def]
    norm_num [roundHalfEven]
  refine ⟨(detect_speech_segments_invariants 960 (fun _ => true)).2.2.2.2.2
      ⟨2, rfl⟩,
    (detect_speech_segments_invariants 0 (fun _ => true)).2.2.2.2.1 h0,
    (detect_speech_segments_invariants 960 (fun _ => true)).2.2.2.1⟩

/-! ## Theorems: Signal Metrics claims -/

theorem frameRMS_ne_nil (sqrtQ : ℚ → ℚ) (audio : List ℚ)
    (h : 100 ≤ audio.length) :
    frameRMS sqrtQ audio (audio.length / 100) ≠ [] := by
  intro hcon
  unfold frameRMS at hcon
  have hlen := congrArg List.length hcon
  simp only [List.length_map, List.length_range, List.length_nil] at hlen
  unfold numFrames at hlen
  have hfs1 : 1 ≤ audio.length / 100 := by omega
  have hfsL : audio.length / 100 < audio.length :=
    Nat.div_lt_self (by omega) (by norm_num)
  have h3 : 1 ≤ (audio.length - audio.length / 100 + (audio.length / 100 - 1))
      / (audio.length / 100) :=
    (Nat.le_div_iff_mul_le (by omega)).mpr (by omega)
  omega

/-- C7 (confirmed): `calculate_snr` always lies in [-50, 50]; it returns
exactly 0 when the signal is shorter than 100 samples (too short to form a
single frame), exactly 50 when the noise floor (the squared 10th percentile of
per-frame RMS) is zero, and otherwise the [-50,50]-clamp of
`10 * log10(signal_power / noise_floor)` — for any model `sqrtQ`/`log10Q` of
the float primitives. -/
theorem calculate_snr_spec (sqrtQ log10Q : ℚ → ℚ) (audio : List ℚ) :
    (-50 ≤ calculate_snr sqrtQ log10Q audio
      ∧ calculate_snr sqrtQ log10Q audio ≤ 50)
    ∧ (audio.length < 100 → calculate_snr sqrtQ log10Q audio = 0)
    ∧ (100 ≤ audio.length → noiseFloor sqrtQ audio = 0 →
        calculate_snr sqrtQ log10Q audio = 50)
    ∧ (100 ≤ audio.length → noiseFloor sqrtQ audio ≠ 0 →
        0 < signalPower audio / noiseFloor sqrtQ audio →
        calculate_snr sqrtQ log10Q audio
          = max (-50) (min 50
            (10 * log10Q (signalPower audio / noiseFloor sqrtQ audio)))) := by
  refine ⟨?_, ?_, ?_, ?_⟩
  · unfold calculate_snr
    split_ifs <;> norm_num
  · intro h
    unfold calculate_snr
    rw [if_pos (by omega : audio.length / 100 < 1)]
  · intro hlen h0
    unfold calculate_snr
    rw [if_neg (by omega : ¬ audio.length / 100 < 1),
      if_neg (frameRMS_ne_nil sqrtQ audio hlen), if_pos h0]
  · intro hlen hnf hpos
    unfold calculate_snr
    rw [if_neg (by omega : ¬ audio.length / 100 < 1),
      if_neg (frameRMS_ne_nil sqrtQ audio hlen), if_neg hnf, if_pos hpos]

theorem sortQ_replicate_zero (n : ℕ) :
    sortQ (List.replicate n (0 : ℚ)) = List.replicate n 0 := by
  induction n with
  | zero => rfl
  | succ k ih =>
    rw [List.replicate_succ]
    show insertSorted 0 (sortQ (List.replicate k 0)) = _
    rw [ih]
    cases k with
    | zero => rfl
    | succ k2 =>
      rw [List.replicate_succ]
      show insertSorted 0 (0 :: List.replicate k2 0) = _
      unfold insertSorted
      norm_num

theorem getD_replicate_zero (n i : ℕ) :
    (List.replicate n (0 : ℚ)).getD i 0 = 0 := by
  rcases lt_or_le i n with h | h
  · rw [List.getD_eq_getElem _ _ (by simpa using h)]
    simp
  · rw [List.getD_eq_default _ _ (by simpa using h)]

theorem noiseFloor_all_zero_rms :
    noiseFloor (fun _ => 0) (List.replicate 100 (0 : ℚ)) = 0 := by
  have hfr : frameRMS (fun _ => (0:ℚ)) (List.replicate 100 (0:ℚ))
      ((List.replicate 100 (0:ℚ)).length / 100) = List.replicate 99 0 := by
    unfold frameRMS numFrames
    simp
  show percentile10 (frameRMS (fun _ => (0:ℚ)) (List.replicate 100 (0:ℚ))
    ((List.replicate 100 (0:ℚ)).length / 100)) ^ 2 = 0
  rw [hfr]
  unfold percentile10
  rw [sortQ_replicate_zero]
  simp only [getD_replicate_zero, List.length_replicate]
  ring

/-- C7 witness: the short-signal branch on the empty signal, the clamp range
there, and the zero-noise-floor branch on a 100-sample silent signal. -/
theorem calculate_snr_spec_witness :
    calculate_snr (fun _ => 0) (fun _ => 0) [] = 0
    ∧ -50 ≤ calculate_snr (fun _ => 0) (fun _ => 0) []
    ∧ calculate_snr (fun _ => 0) (fun _ => 0) (List.replicate 100 0) = 50 := by
  have h := calculate_snr_spec (fun _ => 0) (fun _ => 0) []
  have h2 := calculate_snr_spec (fun _ => 0) (fun _ => 0)
    (List.replicate 100 0)
  exact ⟨h.2.1 (by norm_num), h.1.1,
    h2.2.2.1 (by simp) noiseFloor_all_zero_rms⟩

/-! ## Theorems: enhanced audio orchestration claim -/

/-- C2 (amended): whenever the main processing path fails (enhancement,
feature extraction, VAD, or the primary transcription raised or timed out),
the caller receives a complete result with `overall_score` lowered to 0.3, the
explicit issue flag `processing_failed`, and `fallback_used = true` — PROVIDED
the fallback basic-transcription call succeeds.  If the fallback transcription
also fails, the exception propagates to the caller (so the unrestricted
total-outage claim is false; see the counterexample theorem). -/
theorem process_fallback_spec (enableEnhancement : Bool)
    (enhRes : Except String EnhancementOutcome)
    (featRes : Except String AudioFeatures)
    (vadRes : Except String VadStats)
    (transRes : Except String Transcription)
    (e : String) (t : Transcription) (fe : String)
    (hmain : main_processing enableEnhancement enhRes featRes vadRes transRes
      = .error e) :
    process_audio_with_enhancement enableEnhancement enhRes featRes vadRes
        transRes (.ok t)
      = .ok ⟨t, 3/10, ["processing_failed"], none, false, true, some e⟩
    ∧ process_audio_with_enhancement enableEnhancement enhRes featRes vadRes
        transRes (.error fe) = .error fe := by
  unfold process_audio_with_enhancement
  rw [hmain]
  exact ⟨rfl, rfl⟩

/-- C2 witness: total outage of enhancement/features/VAD/primary transcription
with a succeeding fallback transcription yields the degraded-but-complete
result. -/
theorem process_fallback_spec_witness :
    process_audio_with_enhancement true (.error "down") (.error "down")
        (.error "down") (.error "down") (.ok ⟨"hello", 4/5⟩)
      = .ok ⟨⟨"hello", 4/5⟩, 3/10, ["processing_failed"], none, false, true,
        some "down"⟩
    ∧ process_audio_with_enhancement true (.error "down") (.error "down")
        (.error "down") (.error "down") (.error "also down")
      = .error "also down" :=
  process_fallback_spec true (.error "down") (.error "down") (.error "down")
    (.error "down") "down" ⟨"hello", 4/5⟩ "also down" rfl

/-- C2 counterexample: in a TOTAL external-capability outage — every task and
both Whisper calls raise — `process_audio_with_enhancement` raises to the
caller instead of returning a result, contradicting the claim that the caller
always receives a complete `QualityAssessment`. -/
theorem process_total_outage_raises :
    process_audio_with_enhancement true (.error "down") (.error "down")
      (.error "down") (.error "down") (.error "down") = .error "down" := rfl

/-! ## Theorems: Template Rendering Engine claims -/

theorem lookupVar_append_none {l l' : List (String × String)} {n : String}
    (h : lookupVar l n = none) : lookupVar (l ++ l') n = lookupVar l' n := by
  unfold lookupVar at h ⊢
  have hf : l.find? (fun p => p.1 == n) = none := by
    cases hf : l.find? (fun p => p.1 == n) with
    | none => rfl
    | some v =>
      rw [hf] at h
      simp at h
  rw [List.find?_append, hf]
  simp

theorem lookupVar_append_some {l l' : List (String × String)} {n : String}
    {v : String} (h : lookupVar l n = some v) :
    lookupVar (l ++ l') n = some v := by
  unfold lookupVar at h ⊢
  obtain ⟨p, hp, hp2⟩ : ∃ p, l.find? (fun q => q.1 == n) = some p ∧ p.2 = v := by
    cases hf : l.find? (fun q => q.1 == n) with
    | none =>
      rw [hf] at h
      simp at h
    | some p =>
      rw [hf] at h
      simp at h
      exact ⟨p, rfl, h⟩
  rw [List.find?_append, hp]
  simp [hp2]

theorem lookup_common_none (now : Now) (n : String)
    (h : n ∉ (["current_date", "current_time", "current_year"] : List String)) :
    lookupVar [("current_date", now.date), ("current_time", now.time),
      ("current_year", now.year)] n = none := by
  simp only [List.mem_cons, List.not_mem_nil, or_false, not_or] at h
  obtain ⟨h1, h2, h3⟩ := h
  have e1 : (("current_date" : String) == n) = false :=
    beq_eq_false_iff_ne.mpr (Ne.symm h1)
  have e2 : (("current_time" : String) == n) = false :=
    beq_eq_false_iff_ne.mpr (Ne.symm h2)
  have e3 : (("current_year" : String) == n) = false :=
    beq_eq_false_iff_ne.mpr (Ne.symm h3)
  simp [lookupVar, List.find?, e1, e2, e3]

/-- C8 (confirmed): a template variable that is neither supplied by the caller
nor one of the engine-injected common variables renders as the empty string
(Jinja2 default `Undefined`), and rendering succeeds: replacing every
occurrence of that variable by empty literal text leaves the output unchanged. -/
theorem render_missing_var_empty (now : Now) (tmpl : List Tok)
    (varMap : List (String × String)) (name : String)
    (h1 : lookupVar varMap name = none)
    (h2 : name ∉ (["current_date", "current_time", "current_year"] : List String)) :
    render_template now [Tok.var name] varMap = ""
    ∧ render_template now
        (tmpl.map (fun t => if t = Tok.var name then Tok.text "" else t)) varMap
      = render_template now tmpl varMap := by
  have hmerged : lookupVar (renderVars now varMap) name = none := by
    unfold renderVars
    rw [lookupVar_append_none h1]
    exact lookup_common_none now name h2
  constructor
  · show renderTok (renderVars now varMap) (Tok.var name) ++ "" = ""
    simp [renderTok, hmerged]
  · induction tmpl with
    | nil => rfl
    | cons t rest ih =>
      have hhd : renderTok (renderVars now varMap)
          (if t = Tok.var name then Tok.text "" else t)
          = renderTok (renderVars now varMap) t := by
        by_cases ht : t = Tok.var name
        · subst ht
          simp [renderTok, hmerged]
        · rw [if_neg ht]
      show renderTok (renderVars now varMap)
            (if t = Tok.var name then Tok.text "" else t)
          ++ render_template now
            (rest.map (fun t => if t = Tok.var name then Tok.text "" else t))
            varMap
        = renderTok (renderVars now varMap) t
          ++ render_template now rest varMap
      rw [hhd, ih]

/-- C8 witness: `{{missing_var}}` with an empty variable mapping renders to
the empty string, and the full template renders as if the missing variable
were empty text. -/
theorem render_missing_var_empty_witness :
    render_template ⟨"June 01, 2025", "10:00 AM", "2025"⟩
        [Tok.var "missing_var"] [] = ""
    ∧ render_template ⟨"June 01, 2025", "10:00 AM", "2025"⟩
        ([Tok.text "Hello ", Tok.var "missing_var"].map
          (fun t => if t = Tok.var "missing_var" then Tok.text "" else t)) []
      = render_template ⟨"June 01, 2025", "10:00 AM", "2025"⟩
        [Tok.text "Hello ", Tok.var "missing_var"] [] :=
  render_missing_var_empty ⟨"June 01, 2025", "10:00 AM", "2025"⟩
    [Tok.text "Hello ", Tok.var "missing_var"] [] "missing_var" rfl
    (by decide)

/-- C9 (confirmed): rendering is deterministic given the template and the
variable mapping — the only clock-dependent state is the injected
`current_date`/`current_time`/`current_year` context, so whenever the template
references none of those (or the caller supplies them), the output is
byte-identical across renders at different wall-clock times. -/
theorem render_deterministic (now1 now2 : Now) (tmpl : List Tok)
    (varMap : List (String × String))
    (h : noClockLeak tmpl varMap = true) :
    render_template now1 tmpl varMap = render_template now2 tmpl varMap := by
  induction tmpl with
  | nil => rfl
  | cons t rest ih =>
    simp only [noClockLeak, List.all_cons, Bool.and_eq_true] at h
    have hhd : renderTok (renderVars now1 varMap) t
        = renderTok (renderVars now2 varMap) t := by
      cases t with
      | text s => rfl
      | var n =>
        simp only [renderTok]
        rcases (Bool.or_eq_true _ _).mp h.1 with hc | hc
        · obtain ⟨v, hv⟩ := Option.isSome_iff_exists.mp hc
          unfold renderVars
          rw [lookupVar_append_some hv, lookupVar_append_some hv]
        · have hn : n ∉ (["current_date", "current_time", "current_year"]
              : List String) := by
            simpa using hc
          cases hvm : lookupVar varMap n with
          | some v =>
            unfold renderVars
            rw [lookupVar_append_some hvm, lookupVar_append_some hvm]
          | none =>
            unfold renderVars
            rw [lookupVar_append_none hvm, lookupVar_append_none hvm,
              lookup_common_none now1 n hn, lookup_common_none now2 n hn]
    show renderTok (renderVars now1 varMap) t ++ render_template now1 rest varMap
      = renderTok (renderVars now2 varMap) t ++ render_template now2 rest varMap
    rw [hhd, ih h.2]

/-- C9 witness: the same template and mapping rendered under two different
clocks give byte-identical output. -/
theorem render_deterministic_witness :
    render_template ⟨"June 01, 2025", "10:00 AM", "2025"⟩
        [Tok.text "Hi ", Tok.var "name"] [("name", "Ada")]
      = render_template ⟨"June 02, 2025", "11:00 AM", "2026"⟩
        [Tok.text "Hi ", Tok.var "name"] [("name", "Ada")] :=
  render_deterministic ⟨"June 01, 2025", "10:00 AM", "2025"⟩
    ⟨"June 02, 2025", "11:00 AM", "2026"⟩ [Tok.text "Hi ", Tok.var "name"]
    [("name", "Ada")] (by decide)

/-! ## Theorems: Document Content Generator claims -/

theorem startsWithL_self (l : List Char) : startsWithL l l = true := by
  induction l with
  | nil => rfl
  | cons a as ih => simp [startsWithL, ih]

theorem strContains_self (s : String) : strContains s s = true := by
  unfold strContains
  cases h : s.toList with
  | nil => rfl
  | cons a as =>
    show containsSub (a :: as) (a :: as) = true
    unfold containsSub
    simp [startsWithL_self]

theorem completenessScore_nonneg (sc : StructuredContent) :
    0 ≤ completenessScore sc := by
  unfold completenessScore
  split_ifs <;> norm_num

theorem wordCountScore_nonneg (fc : String) : 0 ≤ wordCountScore fc := by
  unfold wordCountScore
  split_ifs <;> norm_num

theorem titleScore_nonneg (sc : StructuredContent) : 0 ≤ titleScore sc := by
  unfold titleScore
  split_ifs <;> norm_num

theorem headingScore_nonneg (sc : StructuredContent) : 0 ≤ headingScore sc := by
  unfold headingScore
  split_ifs <;> norm_num

theorem templateScore_nonneg (req : DocumentGenerationRequest) :
    0 ≤ templateScore req := by
  unfold templateScore
  split_ifs <;> norm_num

theorem relevanceScore_nonneg (fc : String) (req : DocumentGenerationRequest) :
    0 ≤ relevanceScore fc req := by
  unfold relevanceScore
  split_ifs <;> norm_num

theorem calculate_quality_score_nonneg (sc : StructuredContent) (fc : String)
    (req : DocumentGenerationRequest) :
    0 ≤ calculate_quality_score sc fc req := by
  unfold calculate_quality_score
  refine le_min_iff.mpr ⟨by norm_num, ?_⟩
  have h1 := completenessScore_nonneg sc
  have h2 := wordCountScore_nonneg fc
  have h3 := titleScore_nonneg sc
  have h4 := headingScore_nonneg sc
  have h5 := templateScore_nonneg req
  have h6 := relevanceScore_nonneg fc req
  linarith

theorem extract_plain_content_fallback (clock : DocClock)
    (req : DocumentGenerationRequest) :
    extract_plain_content (fallback_structured_content clock req)
      = req.transcription_text := rfl

theorem suggestions_ok_of_ne_letter (sc : StructuredContent) (fc : String)
    (req : DocumentGenerationRequest)
    (h : req.document_type ≠ DocumentType.letter) :
    ∃ l, generate_suggestions sc fc req = .ok l := by
  rcases req with ⟨text, dt, tid, ct⟩
  cases dt with
  | letter => exact absurd rfl h
  | meeting_minutes => exact ⟨_, rfl⟩
  | report => exact ⟨_, rfl⟩
  | announcement => exact ⟨_, rfl⟩
  | flyer => exact ⟨_, rfl⟩
  | custom => exact ⟨_, rfl⟩

theorem post_process_ok (clock : DocClock) (sc : StructuredContent)
    (fc : String) (req : DocumentGenerationRequest) (l : List String)
    (hl : generate_suggestions sc fc req = .ok l) :
    post_process_document clock sc fc req
      = .ok ⟨extract_plain_content sc, fc,
        ⟨sc.metadata.word_count, sc.metadata.estimated_reading_time,
          sc.metadata.formality_level, clock.isoStr,
          req.document_type.value,
          req.template_id.isSome || req.custom_template.isSome, "2.0"⟩,
        calculate_quality_score sc fc req, l, sc.template_variables⟩ := by
  unfold post_process_document
  rw [hl]
  rfl

theorem generate_document_outage_ok (clock : DocClock)
    (req : DocumentGenerationRequest) (ea : String)
    (rr : Except String String)
    (hneq : req.document_type ≠ DocumentType.letter) :
    (fallback_structured_content clock req).sections ≠ []
    ∧ ∃ r, generate_document clock req (.error ea) rr = .ok r
      ∧ strContains req.transcription_text r.document_content = true
      ∧ r.metadata.word_count = (splitWords req.transcription_text).length
      ∧ 0 ≤ r.quality_score := by
  refine ⟨by simp [fallback_structured_content], ?_⟩
  obtain ⟨l, hl⟩ := suggestions_ok_of_ne_letter
    (fallback_structured_content clock req)
    (match rr with
      | .ok s => s
      | .error _ =>
        format_basic_document (fallback_structured_content clock req))
    req hneq
  refine ⟨_, post_process_ok clock _ _ req l hl, ?_, rfl,
    calculate_quality_score_nonneg _ _ _⟩
  rw [extract_plain_content_fallback]
  exact strContains_self _

/-- C1: the claim holds on every non-letter request (total text-generation
outage still yields a `DocumentGenerationResult` built from the deterministic
single-section fallback: non-empty sections, verbatim transcript in
`document_content`, `metadata.word_count` the whitespace word count — 12 on
the fixture transcript — and `quality_score ≥ 0`); but for a LETTER request
`_generate_suggestions` evaluates `any(<bool>)`, which raises `TypeError`, so
`generate_document` raises instead of returning — the code bug that falsifies
the universal claim. -/
theorem generate_document_outage_spec :
    (∀ (clock : DocClock) (req : DocumentGenerationRequest) (ea : String)
        (rr : Except String String),
      req.document_type ≠ DocumentType.letter →
      (fallback_structured_content clock req).sections ≠ []
      ∧ ∃ r, generate_document clock req (.error ea) rr = .ok r
        ∧ strContains req.transcription_text r.document_content = true
        ∧ r.metadata.word_count = (splitWords req.transcription_text).length
        ∧ 0 ≤ r.quality_score)
    ∧ (∃ r, generate_document fixtureClock fixtureRequest (.error "outage")
          (.error "TemplateNotFound") = .ok r
        ∧ r.metadata.word_count = 12
        ∧ strContains fixtureTranscript r.document_content = true
        ∧ 0 ≤ r.quality_score)
    ∧ generate_document fixtureClock letterRequest (.error "outage")
        (.error "TemplateNotFound") = .error anyBoolTypeError := by
  refine ⟨fun clock req ea rr hneq =>
    generate_document_outage_ok clock req ea rr hneq, ?_, rfl⟩
  obtain ⟨hne, r, hr, hcont, hwc, hq⟩ := generate_document_outage_ok
    fixtureClock fixtureRequest "outage" (.error "TemplateNotFound")
    (by decide)
  have h12 : (splitWords fixtureRequest.transcription_text).length = 12 := by
    rfl
  refine ⟨r, hr, ?_, hcont, hq⟩
  rw [hwc]
  exact h12

/-- C1 witness: the fixture meeting-minutes request under total outage. -/
theorem generate_document_outage_spec_witness :
    (fallback_structured_content fixtureClock fixtureRequest).sections ≠ []
    ∧ ∃ r, generate_document fixtureClock fixtureRequest (.error "outage")
        (.error "TemplateNotFound") = .ok r
      ∧ strContains fixtureRequest.transcription_text r.document_content = true
      ∧ r.metadata.word_count
        = (splitWords fixtureRequest.transcription_text).length
      ∧ 0 ≤ r.quality_score :=
  generate_document_outage_spec.1 fixtureClock fixtureRequest "outage"
    (.error "TemplateNotFound") (by decide)

/-- C10: the meeting-minutes rule holds (no section heading containing
"action" ⇒ the action-items suggestion is appended), but the letter rule is a
code bug: `any("dear" in content.lower() or "hello" in content.lower())`
passes a single `bool` to `any`, which raises `TypeError` for every letter
instead of appending the salutation suggestion. -/
theorem generate_suggestions_doc_type_checks :
    (∀ (sc : StructuredContent) (fc : String)
        (req : DocumentGenerationRequest),
      req.document_type = DocumentType.meeting_minutes →
      sc.sections.all
        (fun s => !(strContains "action" (strLower s.heading))) = true →
      ∃ l, generate_suggestions sc fc req = .ok l
        ∧ "Consider adding an action items section" ∈ l)
    ∧ (∀ (sc : StructuredContent) (fc : String)
        (req : DocumentGenerationRequest),
      req.document_type = DocumentType.letter →
      generate_suggestions sc fc req = .error anyBoolTypeError) := by
  constructor
  · intro sc fc req hdt hall
    unfold generate_suggestions
    rw [hdt]
    refine ⟨_, rfl, ?_⟩
    have hany : sc.sections.any
        (fun s => strContains "action" (strLower s.heading)) = false := by
      rw [List.any_eq_false]
      intro x hx
      have := List.all_eq_true.mp hall x hx
      simpa using this
    simp [hany]
  · intro sc fc req hdt
    unfold generate_suggestions
    rw [hdt]

/-- C10 witness: a meeting-minutes document with a single "Summary" section
gets the action-items suggestion; a letter input hits the `TypeError`. -/
theorem generate_suggestions_doc_type_checks_witness :
    (∃ l, generate_suggestions
        ⟨some "T", [⟨"Summary", "things"⟩], ⟨3, "1 minutes", "professional"⟩,
          []⟩
        "some text" ⟨"t", .meeting_minutes, none, none⟩ = .ok l
      ∧ "Consider adding an action items section" ∈ l)
    ∧ generate_suggestions
        ⟨some "T", [⟨"Summary", "things"⟩], ⟨3, "1 minutes", "professional"⟩,
          []⟩
        "To whom it may concern" ⟨"t", .letter, none, none⟩
      = .error anyBoolTypeError :=
  ⟨generate_suggestions_doc_type_checks.1 _ _ _ rfl (by decide),
    generate_suggestions_doc_type_checks.2 _ _ _ rfl⟩

end AiPrinter
